import Mathlib

/-
  Verification development for the CYBER-THREAT-INTELLIGENCE-AI-SYSTEM
  repository.

  The repository's sources in scope here are the React dashboard
  (`web-react`): `IntelligenceDashboard` (toNumber, severityBadge,
  buildReportSummary, sortItems, severityOrder, emptySummary, the
  empty-state rendering) and the `useLayoutWidth` hook.  The Python
  analytic pipeline (Indicator Extractor, Correlation Engine, Scoring
  Engine, `src/cti/…`) is referenced by the README and the spec but its
  code is not present; where a claim depends on it, the component is
  modelled from the spec and the definition's doc comment says so.
-/

namespace CTI

/-! ## Correlation Engine (spec-modelled)

The Correlation Engine's Python code is not in the repository sources;
the definitions below are modelled from the spec (§4.2): a
co-occurrence graph on a batch of events, edges when two events share
at least `K` normalized indicator values of confidence > 0 and their
timestamps lie within a window `W` (absent timestamps match any
window); connected components of size ≥ 2 become campaigns;
`campaign_id` is computed from the sorted tuple of member event ids. -/

/-- Modelled from the spec: an event as seen by the missing Correlation
Engine.  `indicators` is the set of normalized indicator values of
confidence > 0 (values coded as naturals); `published_at` is an optional
timestamp. -/
structure CEvent where
  event_id : Nat
  indicators : Finset Nat
  published_at : Option Int
deriving DecidableEq

/-- Modelled from the spec: temporal-proximity test of the missing
Correlation Engine — timestamps within `W` of each other; an absent
timestamp matches any window. -/
def timeOkB (W : Nat) (a b : CEvent) : Bool :=
  match a.published_at, b.published_at with
  | some t, some u => (t - u).natAbs ≤ W
  | _, _ => true

/-- Modelled from the spec: the co-occurrence edge of the missing
Correlation Engine — two distinct events sharing at least `K`
confidence-bearing normalized indicator values, within the temporal
window. -/
def edge (K W : Nat) (a b : CEvent) : Prop :=
  a ≠ b ∧ K ≤ (a.indicators ∩ b.indicators).card ∧ timeOkB W a b = true

instance (K W : Nat) (a b : CEvent) : Decidable (edge K W a b) :=
  inferInstanceAs (Decidable (a ≠ b ∧ K ≤ (a.indicators ∩ b.indicators).card ∧ timeOkB W a b = true))

/-- Modelled from the spec: one breadth-first expansion step of the
missing Correlation Engine's connected-component search — add every
batch event adjacent to the current set. -/
def step (K W : Nat) (s X : Finset CEvent) : Finset CEvent :=
  X ∪ s.filter (fun y => ∃ x ∈ X, edge K W x y)

/-- Modelled from the spec: iterated expansion (the BFS of the missing
Correlation Engine), with an explicit iteration count. -/
def iterStep (K W : Nat) (s : Finset CEvent) : Nat → Finset CEvent → Finset CEvent
  | 0, X => X
  | n + 1, X => step K W s (iterStep K W s n X)

/-- Modelled from the spec: the connected component of event `e` in the
batch `s` (the missing Correlation Engine's campaign candidate);
`s.card + 1` expansion steps are enough to saturate. -/
def component (K W : Nat) (s : Finset CEvent) (e : CEvent) : Finset CEvent :=
  iterStep K W s (s.card + 1) {e}

/-- Modelled from the spec: campaigns of a batch given as a set —
connected components that have at least two members. -/
def campaignsOf (K W : Nat) (s : Finset CEvent) : Finset (Finset CEvent) :=
  (s.image (fun e => component K W s e)).filter (fun c => 2 ≤ c.card)

/-- Modelled from the spec: the missing Correlation Engine's
`correlate(events) -> [Campaign]` on a batch given as a list. -/
def correlate (K W : Nat) (l : List CEvent) : Finset (Finset CEvent) :=
  campaignsOf K W l.toFinset

/-- Modelled from the spec: `campaign_id` is a deterministic hash of the
sorted tuple of member event ids; the hash is modelled as the sorted
tuple itself (an injective stand-in). -/
def campaignId (c : Finset CEvent) : List Nat :=
  (c.image CEvent.event_id).sort (· ≤ ·)

/-- Sample events used by concrete witnesses: two events sharing the
normalized indicator `10` three time units apart, and one unrelated
event. -/
def evA : CEvent := ⟨1, {10}, some 0⟩

/-- Second member of the sample campaign (shares indicator `10` with
`evA`). -/
def evB : CEvent := ⟨2, {10}, some 3⟩

/-- An event sharing no indicator with the other two (stays a
singleton component, so it is never emitted as a campaign). -/
def evC : CEvent := ⟨3, {99}, some 100⟩

/-! ## Confidence handling and severity (dashboard code + spec-modelled scoring)

`toNumber`, `severityBadge` and `severityOrder` are translated from
`IntelligenceDashboard` (part_000 lines 29-38 and 250-255).  The
Scoring Engine itself (clamping, thresholding, weighted combination) is
not in the repository sources and is modelled from the spec (§4.3). -/

/-- `toNumber` from the dashboard:
`const toNumber = (v) => (Number.isFinite(+v) ? +v : 0)`.
The JS numeric coercion `+v` is modelled as an `Option ℚ`: `some q`
when `+v` is a finite number `q`, `none` when it is `NaN` or `±∞`.
Note that a finite number passes through unchanged — there is no
clamping here. -/
def toNumber (v : Option ℚ) : ℚ :=
  match v with
  | some q => q
  | none => 0

/-- The numeric severity rank of the `severityOrder` literal's own
keys (lines 250-255): high 4, medium 3, low 2, informational 1, and 0
when no own key applies.  This equals the value of
`severityOrder[x] || 0` on keys that are not inherited
`Object.prototype` member names; see `severityOrderAt` for the full
prototype-aware lookup. -/
def severityOrderFn (s : String) : Nat :=
  if s = "high" then 4
  else if s = "medium" then 3
  else if s = "low" then 2
  else if s = "informational" then 1
  else 0

/-- The result of a JS property get on an object literal: an own
numeric or string property, a truthy member inherited from
`Object.prototype` (a function, or the `__proto__` object) named by
its key, or `undefined`. -/
inductive PropVal where
  | num : Nat → PropVal
  | str : String → PropVal
  | inherited : String → PropVal
  | undefinedP : PropVal
deriving DecidableEq

/-- The property names a plain object literal inherits from
`Object.prototype` (including the Annex B accessors); a get on any of
them yields a truthy value (a function, or for `__proto__` the
prototype object). -/
def objectPrototypeKeys : List String :=
  [("constructor"), ("hasOwnProperty"), ("isPrototypeOf"),
    ("propertyIsEnumerable"), ("toLocaleString"), ("toString"), ("valueOf"),
    ("__defineGetter__"), ("__defineSetter__"), ("__lookupGetter__"),
    ("__lookupSetter__"), ("__proto__")]

/-- Lookup among an object literal's own properties. -/
def ownLookup : List (String × PropVal) → String → Option PropVal
  | [], _ => none
  | (k, v) :: rest, key => if k = key then some v else ownLookup rest key

/-- A JS property get `lit[key]` on an object literal: the own
property if present, otherwise the inherited `Object.prototype`
member, otherwise `undefined`. -/
def litLookup (own : List (String × PropVal)) (key : String) : PropVal :=
  match ownLookup own key with
  | some v => v
  | none => if key ∈ objectPrototypeKeys then .inherited key else .undefinedP

/-- JS truthiness of a property-get result (inherited members are
functions or the prototype object, hence truthy). -/
def truthyP : PropVal → Bool
  | .num n => decide (n ≠ 0)
  | .str s => !s.isEmpty
  | .inherited _ => true
  | .undefinedP => false

/-- `a || b` on property-get results. -/
def jsOrP (a b : PropVal) : PropVal := if truthyP a then a else b

/-- The object literal inside `severityBadge` (lines 33-38). -/
def severityBadgeObj : List (String × PropVal) :=
  [(("high"), .str ("badge badge-high")),
    (("medium"), .str ("badge badge-medium")),
    (("low"), .str ("badge badge-low")),
    (("informational"), .str ("badge badge-informational"))]

/-- `severityBadge` from the dashboard (lines 32-38): a property get on
a four-key object literal (walking the prototype chain, as JS does)
with default parameter `"informational"` and fallback
`|| "badge badge-informational"`.  `none` models calling it with an
absent/undefined severity (the default parameter applies). -/
def severityBadge (s : Option String) : PropVal :=
  jsOrP
    (litLookup severityBadgeObj (match s with | some v => v | none => ("informational")))
    (.str ("badge badge-informational"))

/-- The `severityOrder` object literal (lines 250-255). -/
def severityOrderObj : List (String × PropVal) :=
  [(("high"), .num 4), (("medium"), .num 3), (("low"), .num 2),
    (("informational"), .num 1)]

/-- `severityOrder[s] || 0` as the program evaluates it: a prototype-
aware property get with the `|| 0` fallback. -/
def severityOrderAt (s : String) : PropVal :=
  jsOrP (litLookup severityOrderObj s) (.num 0)

/-- Modelled from the spec: the missing Scoring Engine clamps numeric
confidence to [0,1] (§4.3). -/
def clamp01 (x : ℚ) : ℚ := min 1 (max 0 x)

/-- Modelled from the spec: the missing Scoring Engine's severity
thresholding — combined confidence against configured cutoffs
(≥ `hth` high, ≥ `mth` medium, ≥ `lth` low, else informational). -/
def sevLabel (hth mth lth : ℚ) (c : ℚ) : String :=
  if hth ≤ c then ("high")
  else if mth ≤ c then ("medium")
  else if lth ≤ c then ("low")
  else ("informational")

/-- Modelled from the spec: the missing Scoring Engine's combined
confidence — a weighted combination of classifier confidence,
indicator density (count of confidence>0 indicators, saturating at
`cap`), and a fixed additive campaign-membership bonus, clamped to
[0,1]. -/
def combinedConfidence (wc wd bonus : ℚ) (cap : Nat) (clf : ℚ)
    (count : Nat) (inCampaign : Bool) : ℚ :=
  clamp01 (wc * clf + wd * ((min count cap : Nat) : ℚ) / (cap : ℚ) +
    (if inCampaign then bonus else 0))

/-! ## Layout width hook (`useLayoutWidth`, part_002 lines 3-31) -/

/-- `MIN_WIDTH` from `useLayoutWidth`. -/
def MIN_WIDTH : ℚ := 70

/-- `MAX_WIDTH` from `useLayoutWidth`. -/
def MAX_WIDTH : ℚ := 100

/-- `DEFAULT_WIDTH` from `useLayoutWidth`. -/
def DEFAULT_WIDTH : ℚ := 92

/-- `STEP` from `useLayoutWidth`. -/
def STEP : ℚ := 5

/-- `clamp` from `useLayoutWidth`:
`Math.min(MAX_WIDTH, Math.max(MIN_WIDTH, value))`. -/
def layoutClamp (value : ℚ) : ℚ := min MAX_WIDTH (max MIN_WIDTH value)

/-- `updateWidth` from `useLayoutWidth`: the width stored (in state and
localStorage) for a requested value is the clamped value. -/
def updateWidth (next : ℚ) : ℚ := layoutClamp next

/-- `increase` from `useLayoutWidth`. -/
def increase (width : ℚ) : ℚ := updateWidth (width + STEP)

/-- `decrease` from `useLayoutWidth`. -/
def decrease (width : ℚ) : ℚ := updateWidth (width - STEP)

/-- The load effect of `useLayoutWidth`: `Number(localStorage.getItem …)`
is modelled as `Option ℚ` (`none` when the stored string coerces to a
non-finite number); the saved value replaces the default width only when
it is finite and within `[MIN_WIDTH, MAX_WIDTH]`. -/
def loadWidth (saved : Option ℚ) : ℚ :=
  match saved with
  | some v => if MIN_WIDTH ≤ v ∧ v ≤ MAX_WIDTH then v else DEFAULT_WIDTH
  | none => DEFAULT_WIDTH

/-! ## Table sorting (`sortItems`, part_000 lines 275-291) -/

/-- A sort-key value produced by an accessor: a JS number, a string, or
`undefined` (a missing field). -/
inductive SVal where
  | num : ℚ → SVal
  | str : String → SVal
  | undefined : SVal

/-- `String(value ?? "")` as used in the comparator; JS decimal number
formatting is approximated by the rational's `toString`. -/
def svalString : SVal → String
  | .num q => toString q
  | .str s => s
  | .undefined => ""

/-- `localeCompare(…, "en", sensitivity base)` modelled as
case-insensitive lexicographic comparison returning a sign. -/
def localeCompareBase (a b : String) : Int :=
  if a.toLower < b.toLower then -1
  else if b.toLower < a.toLower then 1
  else 0

/-- The comparator of `sortItems`: numeric difference when both values
are numbers, otherwise locale comparison of their strings, both
multiplied by the direction sign. -/
def sortCmp (dir : Int) (a b : SVal) : ℚ :=
  match a, b with
  | .num x, .num y => (x - y) * dir
  | a, b => (localeCompareBase (svalString a) (svalString b) : ℚ) * dir

/-- `sortItems` from the dashboard: copies the list (`[...items]`) and
sorts the copy with the comparator; the sort is modelled as a stable
merge sort (JS engines implement `Array.prototype.sort` as a stable
sort), with an element kept before another when the comparator is
≤ 0. -/
def sortItems {α : Type} (items : List α) (key direction : String)
    (accessor : α → String → SVal) : List α :=
  let dir : Int := if direction = ("asc") then 1 else -1
  items.mergeSort (fun a b => decide (sortCmp dir (accessor a key) (accessor b key) ≤ 0))

/-! ## Dashboard summary record and section rendering (part_000) -/

/-- `emptySummary` (part_000 lines 22-27). -/
structure Summary where
  total_events : Nat
  high : Nat
  medium : Nat
  low : Nat
  informational : Nat
  campaign_count : Nat
  ioc_count : Nat
deriving DecidableEq

/-- `emptySummary` from the dashboard: all counts zero. -/
def emptySummary : Summary := ⟨0, 0, 0, 0, 0, 0, 0⟩

/-- An event row's fields as consumed by the dashboard table. -/
structure EventItem where
  event_id : String
  incident_type : String
  sector : String
  severity_label : Option String
  confidence : Option ℚ
deriving DecidableEq

/-- An indicator row's fields as consumed by the dashboard table. -/
structure IocItem where
  value : Option String
  normalized_value : Option String
  ioc_type : String
  confidence : Option ℚ
deriving DecidableEq

/-- `severityOrder[item?.severity_label] || 0` as a numeric sort key
for an optional severity label; numeric (hence faithful) on
pipeline-produced enum labels and non-inherited keys — the full
prototype-aware lookup is `severityOrderAt`. -/
def severityOrderOpt : Option String → Nat
  | some s => severityOrderFn s
  | none => 0

/-- `a || fallback` on optional strings (empty string is falsy). -/
def jsOrStr (a : Option String) (fallback : String) : String :=
  match a with
  | some s => if s.isEmpty then fallback else s
  | none => fallback

/-- The events-table accessor from `sortedEvents` (part_000 lines
293-305). -/
def eventAccessor (item : EventItem) (key : String) : SVal :=
  if key = ("severity_label") then .num (severityOrderOpt item.severity_label)
  else if key = ("confidence") then .num (toNumber item.confidence)
  else if key = ("event_id") then .str item.event_id
  else if key = ("incident_type") then .str item.incident_type
  else if key = ("sector") then .str item.sector
  else .undefined

/-- The indicators-table accessor from `sortedIocs` (part_000 lines
307-319). -/
def iocAccessor (item : IocItem) (key : String) : SVal :=
  if key = ("confidence") then .num (toNumber item.confidence)
  else if key = ("value") then .str ((jsOrStr item.normalized_value (jsOrStr item.value (""))).toLower)
  else if key = ("ioc_type") then .str item.ioc_type
  else .undefined

/-- A rendered table section: either the data rows or the dashed
empty-state panel with its message. -/
inductive SectionView (ρ : Type) where
  | rows : List ρ → SectionView ρ
  | emptyState : String → SectionView ρ

/-- The Event Intelligence section (part_000 lines 498-514):
`sortedEvents.length ? rows : empty-state`.  A row shows the first 8
characters of the event id, the incident type, the sector, the
severity badge class, and the numeric confidence. -/
def renderEventsSection (events : List EventItem) (key direction : String) :
    SectionView (String × String × String × PropVal × ℚ) :=
  let sorted := sortItems events key direction eventAccessor
  if sorted.length ≠ 0 then
    .rows (sorted.map fun e =>
      (e.event_id.take 8, e.incident_type, e.sector,
        severityBadge e.severity_label, toNumber e.confidence))
  else
    .emptyState ("No events yet. Run the pipeline with real open-source intelligence sources.")

/-- The Indicators of Compromise Explorer section (part_000 lines
607-621): `sortedIocs.length ? rows : empty-state`. -/
def renderIocsSection (iocs : List IocItem) (key direction : String) :
    SectionView (String × String × ℚ) :=
  let sorted := sortItems iocs key direction iocAccessor
  if sorted.length ≠ 0 then
    .rows (sorted.map fun ioc =>
      (jsOrStr ioc.normalized_value (jsOrStr ioc.value ("")), ioc.ioc_type,
        toNumber ioc.confidence))
  else
    .emptyState ("No Indicators of Compromise yet. Pipeline output required.")

/-! ## Report summary builder (`buildReportSummary`, part_000 lines 49-165)

`JSON.parse` is external; its result is modelled as `Option JSVal`
(`none` when parsing throws and the `catch` branch runs).  Property
reads are modelled as JS semantics dictates: reading a property of
`null`/`undefined` throws (the source uses optional chaining only on
`payload`, not on the items), other primitives box and yield
`undefined` for named fields; object-literal lookup is a finite-key
map (the prototype chain is not modelled).  Calling `forEach` on a
truthy non-array throws.  Exceptions are the `Except` error case. -/

/-- A parsed JS value. -/
inductive JSVal where
  | undefined : JSVal
  | null : JSVal
  | bool : Bool → JSVal
  | num : ℚ → JSVal
  | str : String → JSVal
  | arr : List JSVal → JSVal
  | obj : List (String × JSVal) → JSVal

/-- JS truthiness (`NaN` cannot arise in this model). -/
def truthy : JSVal → Bool
  | .undefined => false
  | .null => false
  | .bool b => b
  | .num q => decide (q ≠ 0)
  | .str s => !s.isEmpty
  | .arr _ => true
  | .obj _ => true

/-- First binding of a key in an association list. -/
def lookupFirst : List (String × JSVal) → String → Option JSVal
  | [], _ => none
  | (k, v) :: rest, key => if k = key then some v else lookupFirst rest key

/-- Field lookup in a parsed object: `JSON.parse` keeps the last
duplicate key, so the reversed list is searched. -/
def lookupField (fs : List (String × JSVal)) (key : String) : JSVal :=
  match lookupFirst fs.reverse key with
  | some v => v
  | none => .undefined

/-- Plain property read `v.key`: throws a `TypeError` on `null` or
`undefined`, returns `undefined` for missing fields and for named
fields of boxed primitives. -/
def getProp : JSVal → String → Except Unit JSVal
  | .undefined, _ => .error ()
  | .null, _ => .error ()
  | .obj fs, key => .ok (lookupField fs key)
  | _, _ => .ok .undefined

/-- Optional-chaining read `v?.key`: yields `undefined` instead of
throwing on `null`/`undefined`. -/
def getPropOpt (v : JSVal) (key : String) : JSVal :=
  match v with
  | .undefined => .undefined
  | .null => .undefined
  | .obj fs => lookupField fs key
  | _ => .undefined

/-- `Array.isArray(v) ? v : []`. -/
def jsArrayOr (v : JSVal) : List JSVal :=
  match v with
  | .arr xs => xs
  | _ => []

/-- Iterating a value as an array (`forEach`, `length` on the result of
`x || []`): throws when the value is not an array. -/
def asArrayE : JSVal → Except Unit (List JSVal)
  | .arr xs => .ok xs
  | _ => .error ()

/-- `SameValueZero` equality as used by `Set.prototype.add`: value
equality on primitives; parsed objects and arrays are fresh references
and therefore never equal. -/
def primEq : JSVal → JSVal → Bool
  | .undefined, .undefined => true
  | .null, .null => true
  | .bool a, .bool b => a == b
  | .num a, .num b => a == b
  | .str a, .str b => a == b
  | _, _ => false

/-- `Set.prototype.add`, with the set kept as an insertion-ordered
list. -/
def setAdd (seen : List JSVal) (v : JSVal) : List JSVal :=
  if seen.any (fun u => primEq u v) then seen else seen ++ [v]

/-- A value used as an object key (`acc[key]`), coerced to a property
string.  JS number/array/object stringification is approximated; only
truthy values reach this point. -/
def stringifyKey : JSVal → String
  | .str s => s
  | .num q => toString q
  | .bool b => if b then ("true") else ("false")
  | .null => ("null")
  | .undefined => ("undefined")
  | .arr _ => ("[array]")
  | .obj _ => ("[object Object]")

/-- `acc[key] = (acc[key] || 0) + 1` on an insertion-ordered counter
list (integer-like-key reordering of JS objects is not modelled). -/
def bump : List (String × Nat) → String → List (String × Nat)
  | [], key => [(key, 1)]
  | (k, n) :: rest, key =>
    if k = key then (k, n + 1) :: rest else (k, n) :: bump rest key

/-- `countBy` from `buildReportSummary` (lines 66-72): counts getter
keys, skipping falsy keys; the getter may throw. -/
def countBy (list : List JSVal) (getter : JSVal → Except Unit JSVal) :
    Except Unit (List (String × Nat)) :=
  list.foldlM (fun acc item => do
    let key ← getter item
    if truthy key then pure (bump acc (stringifyKey key)) else pure acc) []

/-- `counts.x || 0`. -/
def countOf : List (String × Nat) → String → Nat
  | [], _ => 0
  | (k, n) :: rest, key => if k = key then n else countOf rest key

/-- `topKeys` (lines 74-78): entries sorted by descending count
(stable), truncated, keys only. -/
def topKeys (counts : List (String × Nat)) (limit : Nat) : List String :=
  ((counts.mergeSort (fun a b => decide (b.2 ≤ a.2))).take limit).map Prod.fst

/-- `formatList` (lines 46-47). -/
def formatList (list : List String) (fallback : String) : String :=
  if list.length ≠ 0 then String.intercalate (", ") list else fallback

/-- The getter `item.incident_type || "unknown"` (line 80). -/
def incidentGetter (item : JSVal) : Except Unit JSVal := do
  let v ← getProp item ("incident_type")
  pure (if truthy v then v else .str ("unknown"))

/-- The getter `item.sector || "unknown"` (line 81). -/
def sectorGetter (item : JSVal) : Except Unit JSVal := do
  let v ← getProp item ("sector")
  pure (if truthy v then v else .str ("unknown"))

/-- The getter `item.severity_label || "informational"` (line 82). -/
def severityGetter (item : JSVal) : Except Unit JSVal := do
  let v ← getProp item ("severity_label")
  pure (if truthy v then v else .str ("informational"))

/-- The getter `item || "unknown"` used on collected tactics
(line 88). -/
def tacticGetter (t : JSVal) : Except Unit JSVal :=
  pure (if truthy t then t else .str ("unknown"))

/-- The tactics collection loop (lines 84-87):
`(item.mitre_tactics || []).forEach(push)`. -/
def collectTactics (items : List JSVal) : Except Unit (List JSVal) :=
  items.foldlM (fun acc item => do
    let mt ← getProp item ("mitre_tactics")
    let es ← asArrayE (if truthy mt then mt else .arr [])
    pure (acc ++ es)) []

/-- The indicators loop (lines 90-96): accumulates the global `Set` of
ioc values and the raw total `indicatorTotal` (`list.length` summed). -/
def collectIndicators (items : List JSVal) : Except Unit (List JSVal × Nat) :=
  items.foldlM (fun acc item => do
    let iv ← getProp item ("iocs")
    let es ← asArrayE (if truthy iv then iv else .arr [])
    pure (es.foldl setAdd acc.1, acc.2 + es.length)) ([], 0)

/-- `indicators.size || indicatorTotal` (line 103): the indicator count
shown by the report summary — the number of distinct ioc values across
all events, falling back to the raw total when the set is empty. -/
def reportIndicatorCount (items : List JSVal) : Except Unit Nat := do
  let (indicatorSet, indicatorTotal) ← collectIndicators items
  pure (if indicatorSet.length ≠ 0 then indicatorSet.length else indicatorTotal)

/-- One bullet of the rendered report summary. -/
structure Entry where
  title : String
  detail : String
deriving DecidableEq

/-- The single entry returned when `JSON.parse` throws (lines 54-60). -/
def unavailableEntry : Entry :=
  ⟨"Summary unavailable",
    "Report data could not be parsed. Generate a new report to view a readable summary."⟩

/-- `buildReportSummary` (lines 49-165).  `none` is a raw string
`JSON.parse` rejects (the `catch` branch); `some payload` is the parse
result.  The body can throw: the items getters use plain property
access, so a `null` item aborts, as does a truthy non-array
`mitre_tactics` or `iocs`. -/
def buildReportSummary (raw : Option JSVal) : Except Unit (List Entry) :=
  match raw with
  | none => .ok [unavailableEntry]
  | some payload => do
    let items := jsArrayOr (getPropOpt payload ("items"))
    let campaigns := jsArrayOr (getPropOpt payload ("campaigns"))
    let incidentCounts ← countBy items incidentGetter
    let sectorCounts ← countBy items sectorGetter
    let severityCounts ← countBy items severityGetter
    let tactics ← collectTactics items
    let tacticCounts ← countBy tactics tacticGetter
    let indicatorCount ← reportIndicatorCount items
    let topIncidents := topKeys incidentCounts 2
    let topSectors := topKeys sectorCounts 2
    let topTactics := topKeys tacticCounts 3
    let totalEvents := items.length
    let high := countOf severityCounts ("high")
    let medium := countOf severityCounts ("medium")
    let low := countOf severityCounts ("low")
    let info := countOf severityCounts ("informational")
    let campaignCount := campaigns.length
    pure [
      ⟨"Scope",
        "This summary reflects " ++
          (if totalEvents ≠ 0 then toString totalEvents else ("the available")) ++
          " events from the latest Cyber Threat Intelligence run so analysts can prioritize review."⟩,
      ⟨"Incident focus",
        "Most common incident types: " ++
          formatList topIncidents ("a broad mix of incident types") ++ "."⟩,
      ⟨"Sector exposure",
        "Most touched sectors: " ++ formatList topSectors ("multiple sectors") ++ "."⟩,
      ⟨"Severity signal",
        "Severity labels are derived from confidence, correlation strength, and the volume of Indicators of Compromise tied to each event."⟩,
      ⟨"Severity distribution",
        toString high ++ " high, " ++ toString medium ++ " medium, " ++
          toString low ++ " low, and " ++ toString info ++
          " informational items were observed in this run."⟩,
      ⟨"Indicators of Compromise",
        if indicatorCount > 0 then
          "Approximately " ++ toString indicatorCount ++
            " Indicators of Compromise were captured, including network addresses, domains, URLs, and file hashes."
        else
          "No Indicators of Compromise were captured, which can occur when sources provide narrative-only detail."⟩,
      ⟨"Campaign grouping",
        if campaignCount > 0 then
          "Campaign grouping shows " ++ toString campaignCount ++ " cluster" ++
            (if campaignCount = 1 then ("") else ("s")) ++
            " of shared infrastructure and timing."
        else
          "Campaign grouping did not form clusters, suggesting isolated or early-stage activity."⟩,
      ⟨"MITRE ATT&CK mapping",
        if topTactics.length ≠ 0 then
          "Most frequent tactics: " ++ formatList topTactics ("several common tactics") ++ "."
        else
          "MITRE ATT&CK mapping coverage is limited; treat tactic gaps as verification tasks."⟩,
      ⟨"Analyst action",
        "Validate high-priority items against internal logs, then use the report to guide monitoring, threat hunting, and detection tuning."⟩,
      ⟨"Defensive posture",
        "This report is defensive only. Treat public-source indicators as leads until corroborated by internal evidence."⟩]

/-- The Latest Report section's summary block (part_000 lines 683-701):
bullets when the report summary is nonempty, the placeholder paragraph
otherwise. -/
def renderReportSummarySection (rs : List Entry) : SectionView Entry :=
  if rs.length ≠ 0 then .rows rs
  else .emptyState ("Report summary will appear after the latest report is generated.")

/-- Modelled from the spec: the storage layer (not under src/) keeps
one Indicator record per `(source_event_id, normalized_value)` pair,
enforced by a unique constraint / upsert; inserting is keying the
record set by that pair. -/
def insertIndicator (st : Finset (Nat × String)) (eid : Nat) (nv : String) :
    Finset (Nat × String) :=
  insert (eid, nv) st

/-- The claimed well-shapedness of a parsed report payload: every item
is neither `null` nor `undefined` and its `mitre_tactics` and `iocs`
fields are each falsy or a real array. -/
def arrOrFalsyB (v : JSVal) : Bool :=
  !truthy v || (match v with | .arr _ => true | _ => false)

/-- A value on which a plain property read does not throw. -/
def notNullish : JSVal → Bool
  | .null => false
  | .undefined => false
  | _ => true

/-- One report item is safe for the summary builder's plain property
accesses. -/
def itemOk (item : JSVal) : Bool :=
  notNullish item &&
    arrOrFalsyB (getPropOpt item ("mitre_tactics")) &&
    arrOrFalsyB (getPropOpt item ("iocs"))

/-- A payload whose items are all safe for the summary builder. -/
def WellShaped (payload : JSVal) : Prop :=
  ∀ item ∈ jsArrayOr (getPropOpt payload ("items")), itemOk item = true

instance (payload : JSVal) : Decidable (WellShaped payload) :=
  List.decidableBAll _ _

/-- A concrete well-shaped report payload used by witnesses. -/
def samplePayload : JSVal :=
  .obj [(("items"),
      .arr [.obj [(("incident_type"), .str ("phishing")),
        (("iocs"), .arr [.str ("1.2.3.4")])]]),
    (("campaigns"), .arr [])]

lemma subset_step (K W : Nat) (s X : Finset CEvent) : X ⊆ step K W s X :=
  Finset.subset_union_left

lemma subset_iterStep (K W : Nat) (s X : Finset CEvent) :
    ∀ n, X ⊆ iterStep K W s n X := by
  intro n
  induction n with
  | zero => exact fun x hx => hx
  | succ n ih => exact ih.trans (subset_step K W s _)

lemma iterStep_subset_union (K W : Nat) (s X : Finset CEvent) :
    ∀ n, iterStep K W s n X ⊆ X ∪ s := by
  intro n
  induction n with
  | zero => exact Finset.subset_union_left
  | succ n ih =>
    refine Finset.union_subset ih ?_
    exact (Finset.filter_subset _ _).trans Finset.subset_union_right

lemma fixed_or_card (K W : Nat) (s X : Finset CEvent) :
    ∀ n, step K W s (iterStep K W s n X) = iterStep K W s n X ∨
      X.card + n ≤ (iterStep K W s n X).card := by
  intro n
  induction n with
  | zero => right; simp [iterStep]
  | succ n ih =>
    rcases ih with h | h
    · left; simp [iterStep, h]
    · by_cases hf : step K W s (iterStep K W s n X) = iterStep K W s n X
      · left; simp [iterStep, hf]
      · right
        have hss : iterStep K W s n X ⊂ step K W s (iterStep K W s n X) :=
          Finset.ssubset_iff_subset_ne.mpr ⟨subset_step K W s _, fun he => hf he.symm⟩
        have hlt := Finset.card_lt_card hss
        simp only [iterStep]
        omega

lemma step_component (K W : Nat) (s : Finset CEvent) (e : CEvent) :
    step K W s (component K W s e) = component K W s e := by
  rcases fixed_or_card K W s {e} (s.card + 1) with h | h
  · exact h
  · exfalso
    have h1 : (iterStep K W s (s.card + 1) {e}).card ≤ ({e} ∪ s).card :=
      Finset.card_le_card (iterStep_subset_union K W s {e} _)
    have h2 : ({e} ∪ s).card ≤ 1 + s.card := by
      calc ({e} ∪ s).card ≤ ({e} : Finset CEvent).card + s.card := Finset.card_union_le _ _
        _ = 1 + s.card := by rw [Finset.card_singleton]
    have h3 : ({e} : Finset CEvent).card = 1 := Finset.card_singleton e
    omega

/-- The pairwise relation underlying the clustering rule, restricted to
members of the batch. -/
def Rel (K W : Nat) (s : Finset CEvent) (a b : CEvent) : Prop :=
  a ∈ s ∧ b ∈ s ∧ edge K W a b

lemma timeOkB_symm (W : Nat) (a b : CEvent) : timeOkB W a b = timeOkB W b a := by
  unfold timeOkB
  rcases a.published_at with _ | t <;> rcases b.published_at with _ | u <;> simp
  rw [← Int.natAbs_neg, neg_sub]

lemma edge_symm {K W : Nat} {a b : CEvent} (h : edge K W a b) : edge K W b a := by
  refine ⟨h.1.symm, ?_, ?_⟩
  · rw [Finset.inter_comm]; exact h.2.1
  · rw [timeOkB_symm]; exact h.2.2

lemma rel_symm (K W : Nat) (s : Finset CEvent) : Symmetric (Rel K W s) :=
  fun _ _ h => ⟨h.2.1, h.1, edge_symm h.2.2⟩

lemma mem_of_rtg {K W : Nat} {s : Finset CEvent} {e x : CEvent} (he : e ∈ s)
    (h : Relation.ReflTransGen (Rel K W s) e x) : x ∈ s := by
  induction h with
  | refl => exact he
  | tail _ hr _ => exact hr.2.1

lemma sound {K W : Nat} {s : Finset CEvent} {e : CEvent} (he : e ∈ s) :
    ∀ n, ∀ y ∈ iterStep K W s n {e}, Relation.ReflTransGen (Rel K W s) e y := by
  intro n
  induction n with
  | zero =>
    intro y hy
    have : y = e := Finset.mem_singleton.mp hy
    subst this
    exact Relation.ReflTransGen.refl
  | succ n ih =>
    intro y hy
    simp only [iterStep, step, Finset.mem_union, Finset.mem_filter] at hy
    rcases hy with hy | ⟨hys, x, hx, hedge⟩
    · exact ih y hy
    · exact (ih x hx).tail ⟨mem_of_rtg he (ih x hx), hys, hedge⟩

lemma complete {K W : Nat} {s : Finset CEvent} {e y : CEvent}
    (h : Relation.ReflTransGen (Rel K W s) e y) : y ∈ component K W s e := by
  induction h with
  | refl => exact subset_iterStep K W s {e} _ (Finset.mem_singleton_self e)
  | @tail b c hab hbc ih =>
    rw [← step_component K W s e]
    have hc : c ∈ s.filter (fun y => ∃ x ∈ component K W s e, edge K W x y) :=
      Finset.mem_filter.mpr ⟨hbc.2.1, b, ih, hbc.2.2⟩
    exact Finset.mem_union_right _ hc

lemma mem_component_iff {K W : Nat} {s : Finset CEvent} {e y : CEvent} (he : e ∈ s) :
    y ∈ component K W s e ↔ Relation.ReflTransGen (Rel K W s) e y :=
  ⟨sound he _ y, complete⟩

lemma component_eq {K W : Nat} {s : Finset CEvent} {e f x : CEvent}
    (he : e ∈ s) (hf : f ∈ s)
    (hx : x ∈ component K W s e) (hx' : x ∈ component K W s f) :
    component K W s e = component K W s f := by
  have hsymm := Relation.ReflTransGen.symmetric (rel_symm K W s)
  have h1 := (mem_component_iff he).1 hx
  have h2 := (mem_component_iff hf).1 hx'
  have hef : Relation.ReflTransGen (Rel K W s) e f := h1.trans (hsymm h2)
  ext z
  rw [mem_component_iff he, mem_component_iff hf]
  exact ⟨fun h => (hsymm hef).trans h, fun h => hef.trans h⟩

lemma component_subset {K W : Nat} {s : Finset CEvent} {e : CEvent} (he : e ∈ s) :
    component K W s e ⊆ s := by
  have h := iterStep_subset_union K W s {e} (s.card + 1)
  have : ({e} : Finset CEvent) ∪ s = s :=
    Finset.union_eq_right.mpr (Finset.singleton_subset_iff.mpr he)
  rwa [this] at h

/-- C1: for every batch of events and every permutation of that batch,
`correlate` produces the same set of campaigns with identical
campaign ids; each campaign id is a function of the sorted tuple of
member event ids, so re-running over the same input yields identical
ids. -/
theorem claim_C1_correlate_perm_invariant (K W : Nat) (l₁ l₂ : List CEvent)
    (h : l₁.Perm l₂) :
    correlate K W l₁ = correlate K W l₂ ∧
      (correlate K W l₁).image campaignId = (correlate K W l₂).image campaignId := by
  have ht := List.toFinset_eq_of_perm _ _ h
  constructor <;> simp [correlate, ht]

/-- Witness for C1 at a concrete batch and its reversal. -/
theorem claim_C1_witness :
    correlate 1 14 [evA, evB, evC] = correlate 1 14 [evC, evB, evA] ∧
      (correlate 1 14 [evA, evB, evC]).image campaignId =
        (correlate 1 14 [evC, evB, evA]).image campaignId :=
  claim_C1_correlate_perm_invariant 1 14 [evA, evB, evC] [evC, evB, evA] (by decide)

/-- C2: the campaigns of a run partition the correlated events — every
campaign has at least 2 members (singleton components are never
emitted), campaign members are events of the batch, and no event
belongs to two distinct campaigns of the same run. -/
theorem claim_C2_campaigns_partition (K W : Nat) (l : List CEvent) :
    (∀ c ∈ correlate K W l, 2 ≤ c.card) ∧
      (∀ c ∈ correlate K W l, c ⊆ l.toFinset) ∧
      (∀ c₁ ∈ correlate K W l, ∀ c₂ ∈ correlate K W l,
        ∀ x, x ∈ c₁ → x ∈ c₂ → c₁ = c₂) := by
  refine ⟨?_, ?_, ?_⟩
  · intro c hc
    exact (Finset.mem_filter.mp hc).2
  · intro c hc
    obtain ⟨e, he, hce⟩ := Finset.mem_image.mp (Finset.mem_filter.mp hc).1
    subst hce
    exact component_subset he
  · intro c₁ hc₁ c₂ hc₂ x hx₁ hx₂
    obtain ⟨e₁, he₁, hce₁⟩ := Finset.mem_image.mp (Finset.mem_filter.mp hc₁).1
    obtain ⟨e₂, he₂, hce₂⟩ := Finset.mem_image.mp (Finset.mem_filter.mp hc₂).1
    subst hce₁; subst hce₂
    exact component_eq he₁ he₂ hx₁ hx₂

/-- Witness for C2 at a concrete run containing one 2-member campaign
and one singleton component. -/
theorem claim_C2_witness :
    2 ≤ ({evA, evB} : Finset CEvent).card ∧
      ({evA, evB} : Finset CEvent) ⊆ [evA, evB, evC].toFinset ∧
      ({evA, evB} : Finset CEvent) = {evA, evB} := by
  have h := claim_C2_campaigns_partition 1 14 [evA, evB, evC]
  have hm : ({evA, evB} : Finset CEvent) ∈ correlate 1 14 [evA, evB, evC] := by decide
  exact ⟨h.1 _ hm, h.2.1 _ hm, h.2.2 _ hm _ hm evA (by decide) (by decide)⟩

lemma clamp01_nonneg (x : ℚ) : 0 ≤ clamp01 x :=
  le_min (by norm_num) (le_max_left 0 x)

lemma clamp01_le_one (x : ℚ) : clamp01 x ≤ 1 := min_le_left _ _

lemma clamp01_mono {x y : ℚ} (h : x ≤ y) : clamp01 x ≤ clamp01 y :=
  min_le_min le_rfl (max_le_max le_rfl h)

lemma sevLabel_mono (hth mth lth : ℚ) {c₁ c₂ : ℚ} (h : c₁ ≤ c₂) :
    severityOrderFn (sevLabel hth mth lth c₁) ≤
      severityOrderFn (sevLabel hth mth lth c₂) := by
  unfold sevLabel
  split_ifs <;> first | decide | (exfalso; linarith)

/-- C3 counterexample: the claim says any input confidence outside
[0,1] is coerced back into range before display, but `toNumber` passes
finite numbers through unchanged — an event confidence of 2 is
rendered as 2, which exceeds 1. -/
theorem claim_C3_counterexample :
    toNumber (some 2) = 2 ∧ ¬ toNumber (some 2) ≤ 1 := by
  refine ⟨rfl, ?_⟩
  show ¬ (2 : ℚ) ≤ 1
  norm_num

/-- C3 (amended): `toNumber` coerces a non-numeric (NaN/infinite)
confidence to 0 and passes a finite numeric confidence through
unchanged without clamping; the displayed value therefore lies in
[0,1] exactly when the numeric input does.  Clamping to [0,1] is the
(spec-modelled) Scoring Engine's job, whose `clamp01` output is always
in range. -/
theorem claim_C3_toNumber_passthrough (v : Option ℚ) :
    (v = none → toNumber v = 0) ∧
    (∀ q : ℚ, v = some q → toNumber v = q) ∧
    ((∀ q ∈ v, 0 ≤ q ∧ q ≤ 1) → 0 ≤ toNumber v ∧ toNumber v ≤ 1) ∧
    (∀ x : ℚ, 0 ≤ clamp01 x ∧ clamp01 x ≤ 1) := by
  refine ⟨?_, ?_, ?_, fun x => ⟨clamp01_nonneg x, clamp01_le_one x⟩⟩
  · rintro rfl; rfl
  · rintro q rfl; rfl
  · intro h
    cases v with
    | none => exact ⟨le_rfl, by norm_num [toNumber]⟩
    | some q => exact h q rfl

/-- Witness for C3's amended statement at a concrete in-range input. -/
theorem claim_C3_witness :
    0 ≤ toNumber (some (1/2)) ∧ toNumber (some (1/2)) ≤ 1 :=
  (claim_C3_toNumber_passthrough (some (1/2))).2.2.1 (by
    rintro q hq
    rcases Option.mem_some_iff.mp hq with rfl
    norm_num)

/-- C4: severity is monotonic in confidence — under the dashboard's
ordering (high 4 > medium 3 > low 2 > informational 1), a higher
combined confidence never yields a strictly lower severity label; and
the (spec-modelled) combined confidence never decreases when the
indicator count increases, all else equal. -/
theorem claim_C4_scoring_monotone (hth mth lth : ℚ) {c₁ c₂ : ℚ} (hc : c₁ ≤ c₂)
    (wc wd bonus : ℚ) (cap : Nat) (clf : ℚ) {n₁ n₂ : Nat} (mem : Bool)
    (hwd : 0 ≤ wd) (hn : n₁ ≤ n₂) :
    severityOrderFn (sevLabel hth mth lth c₁) ≤
        severityOrderFn (sevLabel hth mth lth c₂) ∧
      combinedConfidence wc wd bonus cap clf n₁ mem ≤
        combinedConfidence wc wd bonus cap clf n₂ mem := by
  refine ⟨sevLabel_mono hth mth lth hc, ?_⟩
  unfold combinedConfidence
  apply clamp01_mono
  have hq : ((min n₁ cap : Nat) : ℚ) ≤ ((min n₂ cap : Nat) : ℚ) := by
    exact_mod_cast min_le_min hn (le_refl cap)
  have hterm : wd * ((min n₁ cap : Nat) : ℚ) / (cap : ℚ) ≤
      wd * ((min n₂ cap : Nat) : ℚ) / (cap : ℚ) := by
    rw [div_eq_mul_inv, div_eq_mul_inv]
    exact mul_le_mul_of_nonneg_right (mul_le_mul_of_nonneg_left hq hwd)
      (inv_nonneg.mpr (Nat.cast_nonneg cap))
  linarith

/-- Witness for C4 at the spec's example thresholds and weights. -/
theorem claim_C4_witness :
    severityOrderFn (sevLabel (3/4) (1/2) (1/4) (3/10)) ≤
        severityOrderFn (sevLabel (3/4) (1/2) (1/4) (3/5)) ∧
      combinedConfidence (1/2) (2/5) (1/10) 5 (3/5) 2 true ≤
        combinedConfidence (1/2) (2/5) (1/10) 5 (3/5) 3 true :=
  claim_C4_scoring_monotone (3/4) (1/2) (1/4) (by norm_num)
    (1/2) (2/5) (1/10) 5 (3/5) true (by norm_num) (by norm_num)

/-- C5 counterexample: the claim says every string input yields one of
the four badge classes and ranks 0 outside the enum, but a JS property
get walks the prototype chain — `severityBadge("toString")` returns
the inherited truthy `Object.prototype.toString` function, not a badge
class, and `severityOrder["toString"] || 0` is that function, not 0. -/
theorem claim_C5_counterexample :
    severityBadge (some ("toString")) = .inherited ("toString") ∧
      severityBadge (some ("toString")) ≠ .str ("badge badge-high") ∧
      severityBadge (some ("toString")) ≠ .str ("badge badge-medium") ∧
      severityBadge (some ("toString")) ≠ .str ("badge badge-low") ∧
      severityBadge (some ("toString")) ≠ .str ("badge badge-informational") ∧
      severityOrderAt ("toString") = .inherited ("toString") ∧
      severityOrderAt ("toString") ≠ .num 0 := by
  decide

/-- C5 (amended): for every severity string that is not an
`Object.prototype` member name, the badge mapping returns one of
exactly four badge classes — the informational class outside the enum
and for an absent/undefined severity — and the sort lookup
`severityOrder[s] || 0` ranks exactly the four enum values (high 4 >
medium 3 > low 2 > informational 1) with 0 for any other such string;
inherited property names (`toString`, `constructor`, …) instead leak
the truthy inherited member past the `||` fallback. -/
theorem claim_C5_severity_enum (v : String) (hv : v ∉ objectPrototypeKeys) :
    severityBadge none = .str ("badge badge-informational") ∧
    (severityBadge (some v) = .str ("badge badge-high") ∨
      severityBadge (some v) = .str ("badge badge-medium") ∨
      severityBadge (some v) = .str ("badge badge-low") ∨
      severityBadge (some v) = .str ("badge badge-informational")) ∧
    (v ≠ ("high") → v ≠ ("medium") → v ≠ ("low") →
      severityBadge (some v) = .str ("badge badge-informational")) ∧
    (severityOrderAt ("high") = .num 4 ∧ severityOrderAt ("medium") = .num 3 ∧
      severityOrderAt ("low") = .num 2 ∧
      severityOrderAt ("informational") = .num 1) ∧
    (v ≠ ("high") → v ≠ ("medium") → v ≠ ("low") → v ≠ ("informational") →
      severityOrderAt v = .num 0) := by
  refine ⟨rfl, ?_, ?_, by decide, ?_⟩
  · simp only [severityBadge, litLookup, ownLookup, severityBadgeObj]
    split_ifs <;> (simp [jsOrP, truthyP] <;> decide)
  · intro h1 h2 h3
    simp only [severityBadge, litLookup, ownLookup, severityBadgeObj]
    split_ifs <;> first | rfl | simp_all [jsOrP, truthyP]
  · intro h1 h2 h3 h4
    simp only [severityOrderAt, litLookup, ownLookup, severityOrderObj]
    split_ifs <;> first | rfl | simp_all [jsOrP, truthyP]

/-- Witness for C5's amended statement at a concrete out-of-enum,
non-inherited severity string. -/
theorem claim_C5_witness :
    severityBadge (some ("garbage")) = .str ("badge badge-informational") ∧
      severityOrderAt ("garbage") = .num 0 :=
  ⟨(claim_C5_severity_enum ("garbage") (by decide)).2.2.1
      (by decide) (by decide) (by decide),
    (claim_C5_severity_enum ("garbage") (by decide)).2.2.2.2
      (by decide) (by decide) (by decide) (by decide)⟩

/-- C8: every width stored by `updateWidth` (hence by `increase` and
`decrease`) lies in [70, 100], and a persisted value that is
non-finite or outside [70, 100] is ignored at load in favor of the
default 92. -/
theorem claim_C8_layout_width_bounds (v w : ℚ) (saved : Option ℚ) :
    (MIN_WIDTH ≤ updateWidth v ∧ updateWidth v ≤ MAX_WIDTH) ∧
    (MIN_WIDTH ≤ increase w ∧ increase w ≤ MAX_WIDTH) ∧
    (MIN_WIDTH ≤ decrease w ∧ decrease w ≤ MAX_WIDTH) ∧
    ((∀ q ∈ saved, ¬(MIN_WIDTH ≤ q ∧ q ≤ MAX_WIDTH)) →
      loadWidth saved = DEFAULT_WIDTH) := by
  have hb : ∀ x : ℚ, MIN_WIDTH ≤ updateWidth x ∧ updateWidth x ≤ MAX_WIDTH := by
    intro x
    unfold updateWidth layoutClamp
    exact ⟨le_min (by norm_num [MIN_WIDTH, MAX_WIDTH]) (le_max_left _ _),
      min_le_left _ _⟩
  refine ⟨hb v, hb _, hb _, ?_⟩
  intro h
  cases saved with
  | none => rfl
  | some q => simp [loadWidth, h q rfl]

/-- Witness for C8 at concrete out-of-range requested and persisted
values. -/
theorem claim_C8_witness :
    loadWidth (some 300) = DEFAULT_WIDTH ∧ updateWidth 200 ≤ MAX_WIDTH :=
  ⟨(claim_C8_layout_width_bounds 200 98 (some 300)).2.2.2 (by
      rintro q hq
      rcases Option.mem_some_iff.mp hq with rfl
      norm_num [MIN_WIDTH, MAX_WIDTH]),
    (claim_C8_layout_width_bounds 200 98 (some 300)).1.2⟩

/-- C9: `sortItems` sorts a copy — the returned list is a permutation
of the input, for every list, sort state, and accessor (the input list
itself, being copied before sorting, is untouched). -/
theorem claim_C9_sortItems_permutation (α : Type) (items : List α)
    (key direction : String) (accessor : α → String → SVal) :
    (sortItems items key direction accessor).Perm items := by
  unfold sortItems
  exact List.mergeSort_perm items _

/-- C7: an empty batch is a valid no-op — correlation of an empty batch
yields no campaigns, the fallback summary has all-zero counts, and
the dashboard renders explicit empty states for the events table, the
indicators table, and the report summary. -/
theorem claim_C7_empty_batch (K W : Nat) (key direction : String) :
    correlate K W [] = ∅ ∧
      emptySummary.total_events = 0 ∧ emptySummary.campaign_count = 0 ∧
      emptySummary.ioc_count = 0 ∧ emptySummary.high = 0 ∧
      emptySummary.medium = 0 ∧ emptySummary.low = 0 ∧
      emptySummary.informational = 0 ∧
      renderEventsSection [] key direction =
        .emptyState ("No events yet. Run the pipeline with real open-source intelligence sources.") ∧
      renderIocsSection [] key direction =
        .emptyState ("No Indicators of Compromise yet. Pipeline output required.") ∧
      renderReportSummarySection [] =
        .emptyState ("Report summary will appear after the latest report is generated.") := by
  refine ⟨?_, rfl, rfl, rfl, rfl, rfl, rfl, rfl, ?_, ?_, rfl⟩
  · simp [correlate, campaignsOf]
  · simp [renderEventsSection, sortItems]
  · simp [renderIocsSection, sortItems]

lemma foldlM_ok {β γ : Type} (f : γ → β → Except Unit γ) (l : List β)
    (h : ∀ a x, x ∈ l → ∃ y, f a x = .ok y) :
    ∀ init, ∃ r, l.foldlM f init = .ok r := by
  induction l with
  | nil => exact fun init => ⟨init, rfl⟩
  | cons x xs ih =>
    intro init
    obtain ⟨y, hy⟩ := h init x (List.mem_cons_self x xs)
    obtain ⟨r, hr⟩ := ih (fun a z hz => h a z (List.mem_cons_of_mem x hz)) y
    refine ⟨r, ?_⟩
    rw [List.foldlM_cons, hy]
    exact hr

lemma exc_bind_ok {α β : Type} (a : α) (f : α → Except Unit β) :
    (Except.ok a >>= f) = f a := rfl

lemma exc_pure_eq_ok {α : Type} (a : α) : (pure a : Except Unit α) = .ok a := rfl

lemma exc_map_ok {α β : Type} (f : α → β) (a : α) :
    (f <$> (Except.ok a : Except Unit α)) = .ok (f a) := rfl

lemma itemOk_parts {item : JSVal} (h : itemOk item = true) :
    notNullish item = true ∧
      arrOrFalsyB (getPropOpt item ("mitre_tactics")) = true ∧
      arrOrFalsyB (getPropOpt item ("iocs")) = true := by
  simp only [itemOk, Bool.and_eq_true] at h
  exact ⟨h.1.1, h.1.2, h.2⟩

lemma getProp_ok_of_not_nullish {item : JSVal} (k : String)
    (h : notNullish item = true) :
    getProp item k = .ok (getPropOpt item k) := by
  cases item <;> simp_all [getProp, getPropOpt, notNullish]

lemma asArrayE_ok_of_arrOrFalsy {v : JSVal} (h : arrOrFalsyB v = true) :
    ∃ xs, asArrayE (if truthy v then v else .arr []) = .ok xs := by
  by_cases ht : truthy v = true
  · simp only [arrOrFalsyB, ht, Bool.not_true, Bool.false_or] at h
    cases v <;> simp_all [asArrayE]
  · have ht' : truthy v = false := by revert ht; cases truthy v <;> simp
    exact ⟨[], by simp [ht', asArrayE]⟩

lemma countBy_ok (list : List JSVal) (getter : JSVal → Except Unit JSVal)
    (h : ∀ x ∈ list, ∃ v, getter x = .ok v) :
    ∃ r, countBy list getter = .ok r := by
  apply foldlM_ok
  intro a x hx
  obtain ⟨v, hv⟩ := h x hx
  refine ⟨if truthy v then bump a (stringifyKey v) else a, ?_⟩
  rw [hv, exc_bind_ok]
  by_cases htv : truthy v = true <;>
    simp [htv, exc_pure_eq_ok]

lemma incidentGetter_ok {item : JSVal} (h : itemOk item = true) :
    ∃ v, incidentGetter item = .ok v := by
  obtain ⟨h1, -, -⟩ := itemOk_parts h
  exact ⟨_, by rw [incidentGetter, getProp_ok_of_not_nullish _ h1]; rfl⟩

lemma sectorGetter_ok {item : JSVal} (h : itemOk item = true) :
    ∃ v, sectorGetter item = .ok v := by
  obtain ⟨h1, -, -⟩ := itemOk_parts h
  exact ⟨_, by rw [sectorGetter, getProp_ok_of_not_nullish _ h1]; rfl⟩

lemma severityGetter_ok {item : JSVal} (h : itemOk item = true) :
    ∃ v, severityGetter item = .ok v := by
  obtain ⟨h1, -, -⟩ := itemOk_parts h
  exact ⟨_, by rw [severityGetter, getProp_ok_of_not_nullish _ h1]; rfl⟩

lemma collectTactics_ok (items : List JSVal)
    (h : ∀ item ∈ items, itemOk item = true) :
    ∃ r, collectTactics items = .ok r := by
  apply foldlM_ok
  intro a x hx
  obtain ⟨h1, h2, -⟩ := itemOk_parts (h x hx)
  obtain ⟨xs, hxs⟩ := asArrayE_ok_of_arrOrFalsy h2
  refine ⟨a ++ xs, ?_⟩
  rw [getProp_ok_of_not_nullish _ h1]
  show asArrayE _ >>= _ = _
  rw [hxs]
  rfl

lemma collectIndicators_ok (items : List JSVal)
    (h : ∀ item ∈ items, itemOk item = true) :
    ∃ r, collectIndicators items = .ok r := by
  apply foldlM_ok
  intro a x hx
  obtain ⟨h1, -, h3⟩ := itemOk_parts (h x hx)
  obtain ⟨xs, hxs⟩ := asArrayE_ok_of_arrOrFalsy h3
  refine ⟨(xs.foldl setAdd a.1, a.2 + xs.length), ?_⟩
  rw [getProp_ok_of_not_nullish _ h1]
  show asArrayE _ >>= _ = _
  rw [hxs]
  rfl

lemma reportIndicatorCount_ok (items : List JSVal)
    (h : ∀ item ∈ items, itemOk item = true) :
    ∃ r, reportIndicatorCount items = .ok r := by
  obtain ⟨⟨st, tot⟩, hr⟩ := collectIndicators_ok items h
  exact ⟨_, by rw [reportIndicatorCount, hr]; rfl⟩

/-- C10 counterexample: `{"items":[null]}` is valid JSON, yet the item
getters use plain property access, so `item.incident_type` on `null`
throws a `TypeError` — `buildReportSummary` does not return ten
entries for every parsed payload. -/
theorem claim_C10_counterexample :
    buildReportSummary (some (.obj [(("items"), .arr [.null])])) = .error () := rfl

/-- C10 (amended): for a raw string `JSON.parse` rejects,
`buildReportSummary` returns exactly the one "Summary unavailable"
entry; for a parsed payload of any shape whose items are non-nullish
with array-or-falsy `mitre_tactics`/`iocs` fields (in particular any
payload without an `items` array, including non-objects), it returns
exactly ten titled entries; a `null`/`undefined` item or a truthy
non-array `mitre_tactics`/`iocs` field makes it throw instead. -/
theorem claim_C10_report_summary_total (payload : JSVal) (h : WellShaped payload) :
    buildReportSummary none = .ok [unavailableEntry] ∧
      ∃ es, buildReportSummary (some payload) = .ok es ∧ es.length = 10 ∧
        es.map Entry.title =
          [("Scope"), ("Incident focus"), ("Sector exposure"), ("Severity signal"),
            ("Severity distribution"), ("Indicators of Compromise"),
            ("Campaign grouping"), ("MITRE ATT&CK mapping"),
            ("Analyst action"), ("Defensive posture")] := by
  refine ⟨rfl, ?_⟩
  obtain ⟨r1, h1⟩ := countBy_ok _ incidentGetter (fun x hx => incidentGetter_ok (h x hx))
  obtain ⟨r2, h2⟩ := countBy_ok _ sectorGetter (fun x hx => sectorGetter_ok (h x hx))
  obtain ⟨r3, h3⟩ := countBy_ok _ severityGetter (fun x hx => severityGetter_ok (h x hx))
  obtain ⟨r4, h4⟩ := collectTactics_ok _ h
  obtain ⟨r5, h5⟩ := countBy_ok r4 tacticGetter (fun x _ => ⟨_, rfl⟩)
  obtain ⟨r6, h6⟩ := reportIndicatorCount_ok _ h
  simp only [buildReportSummary, h1, h2, h3, h4, h5, h6, exc_bind_ok]
  exact ⟨_, rfl, rfl, rfl⟩

/-- Witness for C10's amended statement at a concrete well-shaped
payload. -/
theorem claim_C10_witness :
    ∃ es, buildReportSummary (some samplePayload) = .ok es ∧ es.length = 10 ∧
      es.map Entry.title =
        [("Scope"), ("Incident focus"), ("Sector exposure"), ("Severity signal"),
          ("Severity distribution"), ("Indicators of Compromise"),
          ("Campaign grouping"), ("MITRE ATT&CK mapping"),
          ("Analyst action"), ("Defensive posture")] :=
  (claim_C10_report_summary_total samplePayload (by decide)).2

/-- C6 counterexample: the dashboard summary counts distinct indicator
values globally across events, so the same value `"v"` in two
different events counts once (1), while the per-event-occurrence pair
identity yields two records. -/
theorem claim_C6_counterexample :
    reportIndicatorCount
        [.obj [(("iocs"), .arr [.str ("v")])],
          .obj [(("iocs"), .arr [.str ("v")])]] = .ok 1 ∧
      (insertIndicator (insertIndicator ∅ 1 ("v")) 2 ("v")).card = 2 := by
  exact ⟨rfl, by decide⟩

/-- C6 (amended): at the storage layer (spec-modelled), indicator
identity is per-event-occurrence — re-inserting the same
`(source_event_id, normalized_value)` pair collapses to one record
while the same value under different events yields two records; the
dashboard's report summary, however, counts distinct indicator values
across all events (each value once globally), not `(event, value)`
pairs. -/
theorem claim_C6_indicator_identity (eid eid' : Nat) (nv : String)
    (h : eid ≠ eid') :
    insertIndicator (insertIndicator ∅ eid nv) eid nv = insertIndicator ∅ eid nv ∧
      (insertIndicator (insertIndicator ∅ eid nv) eid' nv).card = 2 ∧
      reportIndicatorCount
        [.obj [(("iocs"), .arr [.str nv])],
          .obj [(("iocs"), .arr [.str nv])]] = .ok 1 := by
  refine ⟨Finset.insert_idem _ _, ?_, ?_⟩
  · have hnm : (eid', nv) ∉ ({(eid, nv)} : Finset (Nat × String)) := by
      simp only [Finset.mem_singleton, Prod.mk.injEq]
      exact fun hp => h hp.1.symm
    show (insert (eid', nv) {(eid, nv)} : Finset (Nat × String)).card = 2
    rw [Finset.card_insert_of_not_mem hnm, Finset.card_singleton]
  · simp [reportIndicatorCount, collectIndicators, setAdd, primEq, asArrayE,
      getProp, lookupField, lookupFirst, truthy, exc_bind_ok, exc_pure_eq_ok,
      exc_map_ok]

/-- Witness for C6's amended statement at concrete event ids and
value. -/
theorem claim_C6_witness :
    insertIndicator (insertIndicator ∅ 3 ("w")) 3 ("w") = insertIndicator ∅ 3 ("w") ∧
      (insertIndicator (insertIndicator ∅ 3 ("w")) 4 ("w")).card = 2 ∧
      reportIndicatorCount
        [.obj [(("iocs"), .arr [.str ("w")])],
          .obj [(("iocs"), .arr [.str ("w")])]] = .ok 1 :=
  claim_C6_indicator_identity 3 4 ("w") (by decide)

end CTI
